/-
Verification of the simplebar-core geometry/synchronization engine
(packages/simplebar-core/src/index.ts).

JS numbers are modelled as rationals (ℚ); the JS `~~` operator (truncation
toward zero) is `jsTrunc`.  Nullable DOM elements and rects are modelled with
`Option`; an operation that the source short-circuits (early `return`) yields
`none` / an unchanged state.  `parseInt` results are modelled as the integer
the source obtains from the computed style string.
-/
import Mathlib

namespace Simplebar

/-- The two scroll axes (`type Axis = 'x' | 'y'`). -/
inductive Axis
  | x
  | y
deriving DecidableEq, Repr

/-- JS `~~v`: truncation toward zero. -/
def jsTrunc (q : ℚ) : ℤ :=
  if 0 ≤ q then ⌊q⌋ else ⌈q⌉

/-- The cached RTL browser profile (`RtlHelpers`). -/
structure RtlHelpers where
  isScrollOriginAtZero : Bool
  isScrollingToNegative : Bool
deriving DecidableEq, Repr

/-- A DOM bounding rectangle (the fields of `getBoundingClientRect` the
source reads). -/
structure Rect where
  left : ℚ
  top : ℚ
  width : ℚ
  height : ℚ
deriving DecidableEq, Repr

/-- `rect[this.axis[axis].sizeAttr]`: `width` for x, `height` for y. -/
def rectSize (ax : Axis) (r : Rect) : ℚ :=
  match ax with
  | Axis.x => r.width
  | Axis.y => r.height

/-- `rect[this.axis[axis].offsetAttr]`: `left` for x, `top` for y. -/
def rectOffset (ax : Axis) (r : Rect) : ℚ :=
  match ax with
  | Axis.x => r.left
  | Axis.y => r.top

/-- An inline-style write performed on the handle element by
`positionScrollbar` (`style.left` / `style.top`, in pixels). -/
inductive StyleWrite
  | left (v : ℚ)
  | top (v : ℚ)
deriving DecidableEq, Repr

/-- `getScrollbarSize` (index.ts 494-517).  Returns 0 when the axis is not
overflowing or the content element is missing; otherwise clamps
`~~(scrollbarRatio * trackSize)` from below by `scrollbarMinSize` and, when
`scrollbarMaxSize` is truthy (non-zero), from above by `scrollbarMaxSize`.
`trackEl = none` models a missing track element (`?? 0`). -/
def getScrollbarSize (isOverflowing : Bool) (contentElPresent : Bool)
    (contentSize : ℚ) (trackEl : Option ℚ)
    (scrollbarMinSize scrollbarMaxSize : ℚ) : ℚ :=
  if !isOverflowing || !contentElPresent then 0
  else
    let trackSize := trackEl.getD 0
    let scrollbarRatio := trackSize / contentSize
    let scrollbarSize : ℚ :=
      max ((jsTrunc (scrollbarRatio * trackSize) : ℤ) : ℚ) scrollbarMinSize
    if scrollbarMaxSize ≠ 0 then min scrollbarSize scrollbarMaxSize
    else scrollbarSize

/-- The handle offset computed by `positionScrollbar` (index.ts 536-557):
the scroll offset is negated for RTL x when `isScrollOriginAtZero`, negated
again for RTL x unless `isScrollingToNegative`, converted to a proportional
offset by `~~((trackSize - scrollbar.size) * scrollPourcent)` and finally
mirrored for RTL x. -/
def handleOffsetOf (ax : Axis) (contentSize : ℚ) (trackEl : Option ℚ)
    (hostSize : ℤ) (scrollOffsetRaw : ℚ) (isRtl : Bool)
    (rtl : Option RtlHelpers) (scrollbarSize : ℚ) : ℚ :=
  let isX : Bool := match ax with | Axis.x => true | Axis.y => false
  let trackSize := trackEl.getD 0
  let scrollOffset1 :=
    if isX && isRtl && (rtl.map (fun h => h.isScrollOriginAtZero)).getD false
    then -scrollOffsetRaw else scrollOffsetRaw
  let scrollOffset2 :=
    if isX && isRtl then
      (if (rtl.map (fun h => h.isScrollingToNegative)).getD false
       then scrollOffset1 else -scrollOffset1)
    else scrollOffset1
  let scrollPourcent := scrollOffset2 / (contentSize - (hostSize : ℚ))
  let handleOffset : ℚ :=
    ((jsTrunc ((trackSize - scrollbarSize) * scrollPourcent) : ℤ) : ℚ)
  if isX && isRtl then -handleOffset + (trackSize - scrollbarSize)
  else handleOffset

/-- `positionScrollbar` (index.ts 519-568).  Early-returns (`none`) when the
axis is not overflowing or the content wrapper, the handle element or the
computed styles are missing; note the track element is NOT checked — a
missing track contributes size 0 (`|| 0`).  Otherwise writes `style.left`
(x) or `style.top` (y), with the y offset 0 replaced by 2. -/
def positionScrollbar (isOverflowing contentWrapperElPresent
    scrollbarElPresent elStylesPresent : Bool) (ax : Axis) (contentSize : ℚ)
    (trackEl : Option ℚ) (hostSize : ℤ) (scrollOffsetRaw : ℚ) (isRtl : Bool)
    (rtl : Option RtlHelpers) (scrollbarSize : ℚ) : Option StyleWrite :=
  if !isOverflowing || !contentWrapperElPresent || !scrollbarElPresent
      || !elStylesPresent then
    none
  else
    let handleOffset := handleOffsetOf ax contentSize trackEl hostSize
      scrollOffsetRaw isRtl rtl scrollbarSize
    match ax with
    | Axis.x => some (StyleWrite.left handleOffset)
    | Axis.y =>
        if handleOffset = 0 then some (StyleWrite.top 2)
        else some (StyleWrite.top handleOffset)

/-- The style writes performed by `toggleTrackVisibility` (index.ts
570-591). -/
structure TrackVisibilityWrites where
  trackVisibility : String
  contentWrapperOverflow : String
  scrollableClassAdded : Bool
  scrollbarDisplay : String
deriving DecidableEq, Repr

/-- `toggleTrackVisibility` (index.ts 570-591): a no-op (`none`) when the
track element, the handle element or the content wrapper is missing. -/
def toggleTrackVisibility (trackElPresent scrollbarElPresent
    contentWrapperElPresent : Bool) (isOverflowing forceVisible : Bool) :
    Option TrackVisibilityWrites :=
  if !trackElPresent || !scrollbarElPresent || !contentWrapperElPresent then
    none
  else
    some
      { trackVisibility :=
          if isOverflowing || forceVisible then "visible" else "hidden"
        contentWrapperOverflow :=
          if isOverflowing || forceVisible then "scroll" else "hidden"
        scrollableClassAdded := isOverflowing || forceVisible
        scrollbarDisplay := if isOverflowing then "block" else "none" }

/-- `drag` (index.ts 803-852): converts a pointer-move during a drag into
the scroll offset written to the native scroll attribute.  Returns `none`
on the early return (`!this.draggedAxis || !this.contentWrapperEl`). -/
def drag (draggedAxis : Option Axis) (contentWrapperElPresent : Bool)
    (trackRect : Option Rect) (scrollbarSize : ℚ) (contentSize : ℚ)
    (hostSize : ℤ) (dragOffset : ℚ) (pageX pageY : ℚ) (isRtl : Bool)
    (rtl : Option RtlHelpers) : Option ℚ :=
  match draggedAxis with
  | none => none
  | some ax =>
    if !contentWrapperElPresent then none
    else
      let trackSize := (trackRect.map (rectSize ax)).getD 0
      let eventOffset := match ax with | Axis.y => pageY | Axis.x => pageX
      let isX : Bool := match ax with | Axis.x => true | Axis.y => false
      let dragPos0 :=
        eventOffset - (trackRect.map (rectOffset ax)).getD 0 - dragOffset
      let dragPos :=
        if isX && isRtl then
          (trackRect.map (rectSize ax)).getD 0 - scrollbarSize - dragPos0
        else dragPos0
      let dragPerc := dragPos / (trackSize - scrollbarSize)
      let scrollPos0 := dragPerc * (contentSize - (hostSize : ℚ))
      let scrollPos :=
        if isX && isRtl then
          (if (rtl.map (fun h => h.isScrollingToNegative)).getD false
           then -scrollPos0 else scrollPos0)
        else scrollPos0
      some scrollPos

/-- `isWithinBounds` (index.ts 941-948), with the stored mouse position. -/
def isWithinBounds (mouseX mouseY : ℚ) (bbox : Rect) : Bool :=
  decide (bbox.left ≤ mouseX) && decide (mouseX ≤ bbox.left + bbox.width) &&
  decide (bbox.top ≤ mouseY) && decide (mouseY ≤ bbox.top + bbox.height)

/-- Per-axis fields of the drag controller read or written by
`onPointerEvent` / `onDragStart` (from `AxisProps`). -/
structure PointerAxis where
  trackElPresent : Bool
  trackRect : Rect
  sbElPresent : Bool
  sbRect : Rect
  isOverflowing : Bool
  forceVisible : Bool
  dragOffset : ℚ
deriving DecidableEq, Repr

/-- Drag-controller state: both axes, the stored mouse position
(`this.mouseX/Y`) and the session fields `isDragging` / `draggedAxis`. -/
structure DragState where
  x : PointerAxis
  y : PointerAxis
  mouseX : ℚ
  mouseY : ℚ
  isDragging : Bool
  draggedAxis : Option Axis
deriving DecidableEq, Repr

/-- `onDragStart` (index.ts 775-798): records the drag offset from the
handle rect, sets `isDragging` and `draggedAxis`.  (The listener and
click-suppression registrations are outside the model.) -/
def onDragStart (s : DragState) (pageX pageY : ℚ) (ax : Axis) : DragState :=
  match ax with
  | Axis.x =>
      { s with
        x := { s.x with dragOffset := pageX - s.x.sbRect.left }
        isDragging := true
        draggedAxis := some Axis.x }
  | Axis.y =>
      { s with
        y := { s.y with dragOffset := pageY - s.y.sbRect.top }
        isDragging := true
        draggedAxis := some Axis.y }

/-- `onPointerEvent` (index.ts 723-770): early-returns when any of the four
track/handle elements is missing; otherwise, for a non-touch `pointerdown`
inside a visible track, starts a drag on the x axis when the pointer is
within the x handle rect, and then on the y axis when within the y handle
rect.  Returns the list of axes on which `onDragStart` was invoked together
with the resulting state. -/
def onPointerEvent (s : DragState) (eType pointerType : String)
    (pageX pageY : ℚ) : List Axis × DragState :=
  if !s.x.trackElPresent || !s.y.trackElPresent || !s.x.sbElPresent
      || !s.y.sbElPresent then
    ([], s)
  else
    let isWithinTrackXBnds :=
      (s.x.isOverflowing || s.x.forceVisible) &&
        isWithinBounds s.mouseX s.mouseY s.x.trackRect
    let isWithinTrackYBnds :=
      (s.y.isOverflowing || s.y.forceVisible) &&
        isWithinBounds s.mouseX s.mouseY s.y.trackRect
    if isWithinTrackXBnds || isWithinTrackYBnds then
      if eType == "pointerdown" && !(pointerType == "touch") then
        let r1 :=
          if isWithinTrackXBnds && isWithinBounds s.mouseX s.mouseY s.x.sbRect
          then ([Axis.x], onDragStart s pageX pageY Axis.x)
          else ([], s)
        if isWithinTrackYBnds &&
            isWithinBounds r1.2.mouseX r1.2.mouseY r1.2.y.sbRect
        then (r1.1 ++ [Axis.y], onDragStart r1.2 pageX pageY Axis.y)
        else r1
      else ([], s)
    else ([], s)

/-- The `forceVisible` option: `false | true | 'x' | 'y'`. -/
inductive ForceVisibleOpt
  | off
  | all
  | axisX
  | axisY
deriving DecidableEq, Repr

/-- A CSS size value written by `recalculate`: `auto` or a pixel length. -/
inductive SizeStyleVal
  | auto
  | px (v : ℚ)
  | percent (v : ℚ)
deriving DecidableEq, Repr

/-- Everything `recalculate` reads from the DOM, the computed styles, the
options and the process-wide caches (index.ts 402-489).  These are the
"geometry inputs" of the idempotence claim. -/
structure RecalcEnv where
  heightAutoObserverElPresent : Bool
  contentElPresent : Bool
  contentWrapperElPresent : Bool
  wrapperElPresent : Bool
  placeholderElPresent : Bool
  sbXPresent : Bool
  sbYPresent : Bool
  trackX : Option ℚ
  trackY : Option ℚ
  heightAutoObserverOffsetHeight : ℚ
  heightAutoObserverOffsetWidth : ℚ
  contentElOffsetWidth : ℚ
  contentElScrollWidth : ℚ
  contentElScrollHeight : ℚ
  contentWrapperElOffsetWidth : ℚ
  contentWrapperElOffsetHeight : ℚ
  contentWrapperScrollWidth : ℚ
  contentWrapperScrollHeight : ℚ
  scrollLeft : ℚ
  scrollTop : ℚ
  elWidth : ℤ
  elHeight : ℤ
  overflowX : String
  overflowY : String
  direction : String
  scrollbarWidth : ℚ
  scrollbarMinSize : ℚ
  scrollbarMaxSize : ℚ
  forceVisibleOpt : ForceVisibleOpt
  rtl : Option RtlHelpers
deriving DecidableEq, Repr

/-- The instance fields `recalculate` writes (per-axis overflow flags,
force-visibility flags and `scrollbar.size`), together with the fields of
the axis state it leaves untouched (drag offsets, handle visibility,
`isDragging`). -/
structure CoreState where
  xIsOverflowing : Bool
  yIsOverflowing : Bool
  xForceVisible : Bool
  yForceVisible : Bool
  xScrollbarSize : ℚ
  yScrollbarSize : ℚ
  xDragOffset : ℚ
  yDragOffset : ℚ
  xScrollbarVisible : Bool
  yScrollbarVisible : Bool
  isDragging : Bool
deriving DecidableEq, Repr

/-- The DOM style writes performed by one `recalculate` run. -/
structure RecalcWrites where
  contentWrapperHeight : Option SizeStyleVal
  placeholderWidth : Option SizeStyleVal
  placeholderHeight : Option SizeStyleVal
  xHandleWidth : Option ℚ
  yHandleHeight : Option ℚ
  xPosition : Option StyleWrite
  yPosition : Option StyleWrite
  xTrack : Option TrackVisibilityWrites
  yTrack : Option TrackVisibilityWrites
deriving DecidableEq, Repr

/-- No writes (the early return). -/
def noWrites : RecalcWrites :=
  { contentWrapperHeight := none, placeholderWidth := none
    placeholderHeight := none, xHandleWidth := none, yHandleHeight := none
    xPosition := none, yPosition := none, xTrack := none, yTrack := none }

/-- `recalculate` (index.ts 402-489).  Early-returns when the height-auto
observer, content, content wrapper or wrapper element is missing; otherwise
recomputes both axes' overflow flags (explicit `hidden` overflow forces
false, then the cross-axis scrollbar-thickness correction is applied),
recomputes the scrollbar sizes, and invokes `positionScrollbar` and
`toggleTrackVisibility` on both axes. -/
def recalculate (s : CoreState) (e : RecalcEnv) : CoreState × RecalcWrites :=
  if !e.heightAutoObserverElPresent || !e.contentElPresent
      || !e.contentWrapperElPresent || !e.wrapperElPresent then
    (s, noWrites)
  else
    let isRtl := e.direction == "rtl"
    let contentElOffsetWidth := e.contentElOffsetWidth
    let isHeightAuto := decide (e.heightAutoObserverOffsetHeight ≤ 1)
    let isWidthAuto := decide (e.heightAutoObserverOffsetWidth ≤ 1)
      || decide (contentElOffsetWidth > 0)
    let contentWrapperElOffsetWidth := e.contentWrapperElOffsetWidth
    let contentElScrollHeight := e.contentElScrollHeight
    let contentElScrollWidth := e.contentElScrollWidth
    let contentWrapperHeight :=
      if isHeightAuto then SizeStyleVal.auto else SizeStyleVal.percent 100
    let placeholderWidth : Option SizeStyleVal :=
      if e.placeholderElPresent then
        some (if isWidthAuto then
          SizeStyleVal.px (if contentElOffsetWidth ≠ 0 then
            contentElOffsetWidth else contentElScrollWidth)
        else SizeStyleVal.auto)
      else none
    let placeholderHeight : Option SizeStyleVal :=
      if e.placeholderElPresent then
        some (SizeStyleVal.px contentElScrollHeight)
      else none
    let contentWrapperElOffsetHeight := e.contentWrapperElOffsetHeight
    let xOverflowing1 := decide (contentElOffsetWidth ≠ 0) &&
      decide (contentElScrollWidth > contentElOffsetWidth)
    let yOverflowing1 :=
      decide (contentElScrollHeight > contentWrapperElOffsetHeight)
    let xOverflowing2 := if e.overflowX == "hidden" then false
      else xOverflowing1
    let yOverflowing2 := if e.overflowY == "hidden" then false
      else yOverflowing1
    let xForceVisible := e.forceVisibleOpt == ForceVisibleOpt.axisX
      || e.forceVisibleOpt == ForceVisibleOpt.all
    let yForceVisible := e.forceVisibleOpt == ForceVisibleOpt.axisY
      || e.forceVisibleOpt == ForceVisibleOpt.all
    let offsetForXScrollbar := if xOverflowing2 then e.scrollbarWidth else 0
    let offsetForYScrollbar := if yOverflowing2 then e.scrollbarWidth else 0
    let xOverflowing3 := xOverflowing2 && decide (contentElScrollWidth >
      contentWrapperElOffsetWidth - offsetForYScrollbar)
    let yOverflowing3 := yOverflowing2 && decide (contentElScrollHeight >
      contentWrapperElOffsetHeight - offsetForXScrollbar)
    let xSize := getScrollbarSize xOverflowing3 true contentElScrollWidth
      e.trackX e.scrollbarMinSize e.scrollbarMaxSize
    let ySize := getScrollbarSize yOverflowing3 true contentElScrollHeight
      e.trackY e.scrollbarMinSize e.scrollbarMaxSize
    let xHandleWidth : Option ℚ := if e.sbXPresent then some xSize else none
    let yHandleHeight : Option ℚ := if e.sbYPresent then some ySize else none
    let xPosition := positionScrollbar xOverflowing3 true e.sbXPresent true
      Axis.x e.contentWrapperScrollWidth e.trackX e.elWidth e.scrollLeft
      isRtl e.rtl xSize
    let yPosition := positionScrollbar yOverflowing3 true e.sbYPresent true
      Axis.y e.contentWrapperScrollHeight e.trackY e.elHeight e.scrollTop
      isRtl e.rtl ySize
    let xTrack := toggleTrackVisibility e.trackX.isSome e.sbXPresent true
      xOverflowing3 xForceVisible
    let yTrack := toggleTrackVisibility e.trackY.isSome e.sbYPresent true
      yOverflowing3 yForceVisible
    ({ s with
        xIsOverflowing := xOverflowing3
        yIsOverflowing := yOverflowing3
        xForceVisible := xForceVisible
        yForceVisible := yForceVisible
        xScrollbarSize := xSize
        yScrollbarSize := ySize },
     { contentWrapperHeight := some contentWrapperHeight
       placeholderWidth := placeholderWidth
       placeholderHeight := placeholderHeight
       xHandleWidth := xHandleWidth
       yHandleHeight := yHandleHeight
       xPosition := xPosition
       yPosition := yPosition
       xTrack := xTrack
       yTrack := yTrack })

/-- Scroll-synchronizer state: the per-axis ticking flags (index.ts 95-96)
and, for each axis, the number of animation-frame callbacks currently
scheduled and not yet run. -/
structure SyncState where
  scrollXTicking : Bool
  scrollYTicking : Bool
  pendingX : ℕ
  pendingY : ℕ
deriving DecidableEq, Repr

/-- Events driving the scroll synchronizer: a native scroll event, or the
browser running the due animation-frame callbacks. -/
inductive SyncEvent
  | scroll
  | frame

/-- Initial synchronizer state (no callback pending, flags clear). -/
def syncInit : SyncState :=
  { scrollXTicking := false, scrollYTicking := false
    pendingX := 0, pendingY := 0 }

/-- `onScroll` (index.ts 611-632): per axis, if the ticking flag is clear,
schedule one frame callback (`requestAnimationFrame(this.scrollX/Y)`) and
set the flag. -/
def onScrollStep (s : SyncState) : SyncState :=
  { scrollXTicking := true
    scrollYTicking := true
    pendingX := if s.scrollXTicking then s.pendingX else s.pendingX + 1
    pendingY := if s.scrollYTicking then s.pendingY else s.pendingY + 1 }

/-- An animation frame runs every pending `scrollX` / `scrollY` callback
(index.ts 634-648): each repositions its axis's handle (when overflowing)
and clears its ticking flag.  Returns the new state together with the
number of reposition callbacks executed on each axis in this frame. -/
def frameStep (s : SyncState) : SyncState × ℕ × ℕ :=
  (syncInit, s.pendingX, s.pendingY)

/-- One synchronizer transition. -/
def syncStep (s : SyncState) : SyncEvent → SyncState
  | SyncEvent.scroll => onScrollStep s
  | SyncEvent.frame => (frameStep s).1

/-- Run the synchronizer over a sequence of events. -/
def syncRun (s : SyncState) (es : List SyncEvent) : SyncState :=
  es.foldl syncStep s

/-- Invariant of the scroll synchronizer: at most one frame callback is
pending per axis, and none is pending while the axis's ticking flag is
clear. -/
def SyncInv (s : SyncState) : Prop :=
  s.pendingX ≤ 1 ∧ s.pendingY ≤ 1 ∧
  (s.scrollXTicking = false → s.pendingX = 0) ∧
  (s.scrollYTicking = false → s.pendingY = 0)

theorem syncStep_inv {s : SyncState} (h : SyncInv s) (ev : SyncEvent) :
    SyncInv (syncStep s ev) := by
  obtain ⟨hx, hy, hx0, hy0⟩ := h
  cases ev with
  | scroll =>
    cases htx : s.scrollXTicking <;> cases hty : s.scrollYTicking <;>
      simp_all [SyncInv, syncStep, onScrollStep]
  | frame => simp [SyncInv, syncStep, frameStep, syncInit]

theorem syncRun_inv (es : List SyncEvent) {s : SyncState} (h : SyncInv s) :
    SyncInv (syncRun s es) := by
  induction es generalizing s with
  | nil => exact h
  | cons e es ih => exact ih (syncStep_inv h e)

end Simplebar

namespace Simplebar

/-- C1 counterexample: with content scroll-size 1000, track size 10,
`scrollbarMinSize = 25` and `scrollbarMaxSize = 0` (unbounded), on an
overflowing axis `getScrollbarSize` returns 25, which is NOT ≤ the track
size 10 — the claimed bound `scrollbarSize ≤ track size` fails. -/
theorem getScrollbarSize_min_exceeds_track :
    getScrollbarSize true true 1000 (some 10) 25 0 = 25 ∧
    ¬ getScrollbarSize true true 1000 (some 10) 25 0 ≤ 10 := by
  norm_num [getScrollbarSize, jsTrunc]

/-- C1 (amended): on an overflowing axis with the content element present,
provided `scrollbarMinSize ≤ trackSize ≤ contentSize`, `0 < contentSize`,
`0 ≤ trackSize` and `scrollbarMaxSize` is 0 or at least `scrollbarMinSize`,
the value returned by `getScrollbarSize` is at least `scrollbarMinSize`, at
most `scrollbarMaxSize` when that is non-zero, and at most the track
size. -/
theorem getScrollbarSize_clamped (cs t minS maxS : ℚ) (hc : 0 < cs)
    (ht0 : 0 ≤ t) (htc : t ≤ cs) (hmin : minS ≤ t)
    (hmax : maxS = 0 ∨ minS ≤ maxS) :
    minS ≤ getScrollbarSize true true cs (some t) minS maxS ∧
    (maxS ≠ 0 → getScrollbarSize true true cs (some t) minS maxS ≤ maxS) ∧
    getScrollbarSize true true cs (some t) minS maxS ≤ t := by
  have hq0 : (0 : ℚ) ≤ t / cs * t := mul_nonneg (div_nonneg ht0 hc.le) ht0
  have hqt : t / cs * t ≤ t := by
    have h1 : t / cs ≤ 1 := (div_le_one hc).mpr htc
    calc t / cs * t ≤ 1 * t := mul_le_mul_of_nonneg_right h1 ht0
    _ = t := one_mul t
  have hfl : ((jsTrunc (t / cs * t) : ℤ) : ℚ) ≤ t := by
    unfold jsTrunc
    rw [if_pos hq0]
    exact le_trans (Int.floor_le _) hqt
  have hval : getScrollbarSize true true cs (some t) minS maxS =
      if maxS ≠ 0 then
        min (max ((jsTrunc (t / cs * t) : ℤ) : ℚ) minS) maxS
      else max ((jsTrunc (t / cs * t) : ℤ) : ℚ) minS := by
    simp [getScrollbarSize]
  rw [hval]
  by_cases hz : maxS ≠ 0
  · rw [if_pos hz]
    refine ⟨le_min (le_max_right _ _) (hmax.resolve_left hz), fun _ => ?_, ?_⟩
    · exact min_le_right _ _
    · exact le_trans (min_le_left _ _) (max_le hfl hmin)
  · rw [if_neg hz]
    exact ⟨le_max_right _ _, fun h => absurd h hz, max_le hfl hmin⟩

/-- Witness for C1 (amended) at the spec's concrete scenario. -/
theorem getScrollbarSize_clamped_witness :
    25 ≤ getScrollbarSize true true 1000 (some 196) 25 0 ∧
    ((0 : ℚ) ≠ 0 → getScrollbarSize true true 1000 (some 196) 25 0 ≤ 0) ∧
    getScrollbarSize true true 1000 (some 196) 25 0 ≤ 196 :=
  getScrollbarSize_clamped 1000 196 25 0 (by norm_num) (by norm_num)
    (by norm_num) (by norm_num) (Or.inl rfl)

/-- C2 counterexample: during an RTL x drag with
`isScrollingToNegative = false`, the code does NOT negate the computed
scroll position (it writes 200, not the -200 the claim requires). -/
theorem drag_rtl_not_negated :
    drag (some Axis.x) true (some ⟨0, 0, 100, 0⟩) 20 500 100 0 40 0 true
      (some ⟨false, false⟩) = some 200 ∧
    drag (some Axis.x) true (some ⟨0, 0, 100, 0⟩) 20 500 100 0 40 0 true
      (some ⟨false, false⟩) ≠ some (-200) := by
  norm_num [drag, rectSize, rectOffset]

/-- C2 (amended): during an RTL x drag, the computed scroll position
`dragPercent * (contentScrollSize - hostSize)` is negated if and only if
`isScrollingToNegative` is TRUE (not false as claimed), before being
written to the native scroll offset. -/
theorem drag_rtl_negation (r : RtlHelpers) (tr : Option Rect) (sz cs : ℚ)
    (hs : ℤ) (dOff px py : ℚ) :
    drag (some Axis.x) true tr sz cs hs dOff px py true (some r) =
      some (if r.isScrollingToNegative then
        -((((tr.map (rectSize Axis.x)).getD 0 - sz -
            (px - (tr.map (rectOffset Axis.x)).getD 0 - dOff)) /
           ((tr.map (rectSize Axis.x)).getD 0 - sz)) * (cs - (hs : ℚ)))
      else
        (((tr.map (rectSize Axis.x)).getD 0 - sz -
            (px - (tr.map (rectOffset Axis.x)).getD 0 - dOff)) /
           ((tr.map (rectSize Axis.x)).getD 0 - sz)) * (cs - (hs : ℚ))) := by
  cases hc : r.isScrollingToNegative <;> simp [drag, hc]

/-- C3 counterexample: a state in which a drag session is already active
(`isDragging = true`) and the pointer lies within both tracks' and both
handles' rects; a single non-touch pointer-down then invokes `onDragStart`
on BOTH axes. -/
theorem onPointerEvent_starts_both_axes :
    (onPointerEvent
      (⟨⟨true, ⟨0, 0, 10, 10⟩, true, ⟨0, 0, 10, 10⟩, true, false, 0⟩,
        ⟨true, ⟨0, 0, 10, 10⟩, true, ⟨0, 0, 10, 10⟩, true, false, 0⟩,
        5, 5, true, none⟩ : DragState) "pointerdown" "mouse" 5 5).1 =
      [Axis.x, Axis.y] ∧
    (⟨⟨true, ⟨0, 0, 10, 10⟩, true, ⟨0, 0, 10, 10⟩, true, false, 0⟩,
      ⟨true, ⟨0, 0, 10, 10⟩, true, ⟨0, 0, 10, 10⟩, true, false, 0⟩,
      5, 5, true, none⟩ : DragState).isDragging = true := by
  constructor
  · norm_num [onPointerEvent, onDragStart, isWithinBounds]
    rfl
  · rfl

/-- C3 (amended): the drag controller records at most one session at a
time — `draggedAxis` is a single optional axis.  A pointer event either
starts nothing (leaving the state unchanged), starts x only, starts y only,
or starts both (when the pointer lies within both handles' rects), in which
case the y session overwrites the x session; the code does not otherwise
prevent starting a drag while one is active. -/
theorem onPointerEvent_single_recorded (s : DragState) (eType pType : String)
    (px py : ℚ) :
    ((onPointerEvent s eType pType px py).1 = [] ∧
      (onPointerEvent s eType pType px py).2 = s) ∨
    ((onPointerEvent s eType pType px py).1 = [Axis.x] ∧
      (onPointerEvent s eType pType px py).2.draggedAxis = some Axis.x) ∨
    ((onPointerEvent s eType pType px py).1 = [Axis.y] ∧
      (onPointerEvent s eType pType px py).2.draggedAxis = some Axis.y) ∨
    ((onPointerEvent s eType pType px py).1 = [Axis.x, Axis.y] ∧
      (onPointerEvent s eType pType px py).2.draggedAxis = some Axis.y) := by
  cases hA : (!s.x.trackElPresent || !s.y.trackElPresent || !s.x.sbElPresent
      || !s.y.sbElPresent) <;>
  cases hX : ((s.x.isOverflowing || s.x.forceVisible) &&
      isWithinBounds s.mouseX s.mouseY s.x.trackRect) <;>
  cases hY : ((s.y.isOverflowing || s.y.forceVisible) &&
      isWithinBounds s.mouseX s.mouseY s.y.trackRect) <;>
  cases hP : (eType == "pointerdown" && !(pType == "touch")) <;>
  cases hSX : isWithinBounds s.mouseX s.mouseY s.x.sbRect <;>
  cases hSY : isWithinBounds s.mouseX s.mouseY s.y.sbRect <;>
  simp [onPointerEvent, onDragStart, hA, hX, hY, hP, hSX, hSY]

/-- C4 counterexample: with the track element ABSENT but the handle element
present, `positionScrollbar` is not a no-op — it still writes the handle's
`top` style (the track size is treated as 0, yielding the write `top:
-19px` here). -/
theorem positionScrollbar_track_missing_writes :
    positionScrollbar true true true true Axis.y 1000 none 200 400 false
      none 38 = some (StyleWrite.top (-19)) ∧
    positionScrollbar true true true true Axis.y 1000 none 200 400 false
      none 38 ≠ none := by
  constructor
  · norm_num [positionScrollbar, handleOffsetOf, jsTrunc]
    norm_cast
  · norm_num [positionScrollbar, handleOffsetOf, jsTrunc,
      Option.some_ne_none]

/-- C4 (amended): per-axis operations are no-ops for the element checks the
source actually performs — `positionScrollbar` when the HANDLE element is
absent, `toggleTrackVisibility` when either track or handle is absent, and
pointer handling (drag start) when any track/handle element is absent —
but `positionScrollbar` does NOT check the track element and still writes
the handle style when only the track is missing. -/
theorem absent_element_noop (isOv cwP esP : Bool) (ax : Axis) (cs : ℚ)
    (te : Option ℚ) (hs : ℤ) (so : ℚ) (isRtl : Bool)
    (rtl : Option RtlHelpers) (sz : ℚ) (tp sp cwp ov fv : Bool)
    (s : DragState) (eT pT : String) (px py : ℚ) :
    positionScrollbar isOv cwP false esP ax cs te hs so isRtl rtl sz =
      none ∧
    toggleTrackVisibility false sp cwp ov fv = none ∧
    toggleTrackVisibility tp false cwp ov fv = none ∧
    onPointerEvent { s with x := { s.x with sbElPresent := false } }
      eT pT px py =
      ([], { s with x := { s.x with sbElPresent := false } }) ∧
    onPointerEvent { s with y := { s.y with trackElPresent := false } }
      eT pT px py =
      ([], { s with y := { s.y with trackElPresent := false } }) := by
  refine ⟨?_, ?_, ?_, ?_, ?_⟩ <;>
    simp [positionScrollbar, toggleTrackVisibility, onPointerEvent]

/-- C5: the spec's concrete non-RTL scenario — content scroll-size 1000,
host size 200, track size 196, `scrollbarMinSize = 25`, unbounded max —
gives `getScrollbarSize = 38`, and at scroll offset 400 `positionScrollbar`
computes a handle offset of 79 pixels. -/
theorem concrete_scenario :
    getScrollbarSize true true 1000 (some 196) 25 0 = 38 ∧
    positionScrollbar true true true true Axis.y 1000 (some 196) 200 400
      false none 38 = some (StyleWrite.top 79) := by
  constructor
  · norm_num [getScrollbarSize, jsTrunc]
  · norm_num [positionScrollbar, handleOffsetOf, jsTrunc]

/-- C6: positioning the x handle in RTL direction, for every RTL profile
(all four flag combinations): the scroll offset is negated when
`isScrollOriginAtZero`, negated again when `isScrollingToNegative` is
false, the handle offset is the truncated proportional formula applied to
the adjusted offset, and the final written offset is the mirror
`trackSize - scrollbarSize - handleOffset`. -/
theorem positionScrollbar_rtl_x (r : RtlHelpers) (cs : ℚ) (te : Option ℚ)
    (hs : ℤ) (so sz : ℚ) :
    positionScrollbar true true true true Axis.x cs te hs so true (some r)
      sz =
    some (StyleWrite.left
      (te.getD 0 - sz -
        ((jsTrunc ((te.getD 0 - sz) *
          ((if r.isScrollingToNegative then
              (if r.isScrollOriginAtZero then -so else so)
            else -(if r.isScrollOriginAtZero then -so else so)) /
           (cs - (hs : ℚ)))) : ℤ) : ℚ))) := by
  cases hb : r.isScrollOriginAtZero <;> cases hc : r.isScrollingToNegative <;>
    simp [positionScrollbar, handleOffsetOf, hb, hc] <;> ring_nf

/-- C7: after `recalculate` runs (all required elements present), an axis
whose computed CSS overflow is explicitly "hidden" has
`isOverflowing = false`, regardless of the measured sizes. -/
theorem recalculate_overflow_hidden (s : CoreState) (e : RecalcEnv) :
    (recalculate s { e with
        heightAutoObserverElPresent := true
        contentElPresent := true
        contentWrapperElPresent := true
        wrapperElPresent := true
        overflowX := "hidden" }).1.xIsOverflowing = false ∧
    (recalculate s { e with
        heightAutoObserverElPresent := true
        contentElPresent := true
        contentWrapperElPresent := true
        wrapperElPresent := true
        overflowY := "hidden" }).1.yIsOverflowing = false := by
  constructor <;> simp [recalculate]

/-- C8: `recalculate` is idempotent — with unchanged geometry inputs, a
second invocation produces exactly the same axis state and the same style
writes (handle size and position included) as the first. -/
theorem recalculate_idempotent (s : CoreState) (e : RecalcEnv) :
    recalculate (recalculate s e).1 e = recalculate s e := by
  cases hg : (!e.heightAutoObserverElPresent || !e.contentElPresent
      || !e.contentWrapperElPresent || !e.wrapperElPresent) with
  | true => simp [recalculate, hg]
  | false => simp [recalculate, hg]

/-- C9: for every sequence of scroll events and animation frames, the
scroll synchronizer has at most one frame callback scheduled per axis at
any time, so each frame executes at most one handle reposition per axis. -/
theorem sync_at_most_one_reposition_per_frame (es : List SyncEvent) :
    (frameStep (syncRun syncInit es)).2.1 ≤ 1 ∧
    (frameStep (syncRun syncInit es)).2.2 ≤ 1 := by
  have h := syncRun_inv es (s := syncInit) (by simp [SyncInv, syncInit])
  exact ⟨h.1, h.2.1⟩

/-- C10: on the y axis `positionScrollbar` writes `top: 2px` when the
computed proportional handle offset is 0 and the exact offset otherwise;
on the x axis it always writes the exact computed offset (`left`), with no
special-casing of 0. -/
theorem positionScrollbar_zero_offset (cs : ℚ) (te : Option ℚ) (hs : ℤ)
    (so : ℚ) (isRtl : Bool) (rtl : Option RtlHelpers) (sz : ℚ) :
    positionScrollbar true true true true Axis.y cs te hs so isRtl rtl sz =
      (if ((jsTrunc ((te.getD 0 - sz) * (so / (cs - (hs : ℚ)))) : ℤ) : ℚ)
          = 0
       then some (StyleWrite.top 2)
       else some (StyleWrite.top
         ((jsTrunc ((te.getD 0 - sz) * (so / (cs - (hs : ℚ)))) : ℤ) : ℚ))) ∧
    positionScrollbar true true true true Axis.x cs te hs so isRtl rtl sz =
      some (StyleWrite.left
        (handleOffsetOf Axis.x cs te hs so isRtl rtl sz)) := by
  constructor
  · simp [positionScrollbar, handleOffsetOf]
  · simp [positionScrollbar]

end Simplebar
